import Mathlib

/-!
Shallow embedding of the tfjs-examples repository glue code, together with
proofs of the behavioural claims about it.

Each JavaScript source file is translated into executable Lean definitions:
JavaScript numbers that are only ever integers become `Int`/`Nat`, general
numeric arguments become `Rat`, fallible code returns `Except`/`Option`, and
external effects (network, file system, the ML library) are modelled
explicitly as oracles or state.
-/

/-! ## snake-dqn/dqn.js -/

namespace SnakeDQN

/-- A JavaScript value, as passed to `createDeepQNetwork` by callers and by
the unit tests (which pass numbers, numeric strings, `null`, `undefined`). -/
inductive JSVal where
  | num (q : ℚ)
  | str (s : String)
  | nullV
  | undef
deriving DecidableEq, Repr

/-- `Number.isInteger(v)`: true exactly for numbers with no fractional part. -/
def jsIsInteger : JSVal → Bool
  | .num q => q.den == 1
  | _ => false

/-- `v > c` for a numeric `v`; in the source this comparison is only reached
after `Number.isInteger(v)` has already succeeded, so non-numbers map to
`false`. -/
def jsGt : JSVal → ℚ → Bool
  | .num q, c => decide (c < q)
  | _, _ => false

/-- The test `Number.isInteger(v) && v > 0` used for `h`, `w`, `stateFrames`. -/
def jsPosInt (v : JSVal) : Bool := jsIsInteger v && jsGt v 0

/-- The test `Number.isInteger(v) && v > 1` used for `numActions`. -/
def jsIntGtOne (v : JSVal) : Bool := jsIsInteger v && jsGt v 1

/-- String interpolation `${v}` of a JavaScript value. -/
def jsToString : JSVal → String
  | .num q => if q.den == 1 then toString q.num else toString q
  | .str s => s
  | .nullV => "null"
  | .undef => "undefined"

/-- The integer value of an integral numeric `JSVal` (only used once the
`Number.isInteger` guard has succeeded). -/
def jsInt : JSVal → ℤ
  | .num q => q.num
  | _ => 0

/-- One layer added to the `tf.sequential()` model, with the configuration
recorded exactly as passed in the source. -/
inductive Layer where
  | conv2d (filters kernelSize strides : ℤ) (activation : String)
      (inputShape : Option (List ℤ))
  | flatten
  | dense (units : ℤ) (activation : Option String)
deriving DecidableEq, Repr

/-- A `tf.sequential()` model: the list of layers added to it, in order. -/
structure Model where
  layers : List Layer
deriving DecidableEq, Repr

/-- A tensor shape as reported by the library: `none` is the unknown batch
dimension (printed `null`). -/
abbrev TFShape := List (Option ℤ)

/-- The library's `convOutputLength` for `'valid'` padding and dilation 1:
`Math.floor((inputLength - kernelSize + 1 + stride - 1) / stride)`. -/
def convOutputLength (l k s : ℤ) : ℤ := Int.fdiv (l - k + 1 + s - 1) s

/-- Shape propagation of a single layer over the non-batch dimensions, as the
library computes it when a layer is added to a sequential model. -/
def layerOutputDims : Layer → List ℤ → List ℤ
  | .conv2d f k s _ _, [a, b, _c] => [convOutputLength a k s, convOutputLength b k s, f]
  | .conv2d _ _ _ _ _, d => d
  | .flatten, d => [d.prod]
  | .dense u _, d => d.dropLast ++ [u]

/-- The model's non-batch input dimensions: the `inputShape` configured on the
first layer. -/
def modelInputDims (m : Model) : Option (List ℤ) :=
  match m.layers with
  | .conv2d _ _ _ _ (some dims) :: _ => some dims
  | _ => none

/-- The model's input shape as reported by the library, batch dimension
included: `[null, ...inputShape]`. -/
def modelInputShape (m : Model) : Option TFShape :=
  (modelInputDims m).map fun dims => none :: dims.map some

/-- The model's output shape, batch dimension included, obtained by folding
shape propagation over all layers. -/
def modelOutputShape (m : Model) : Option TFShape :=
  (modelInputDims m).map fun dims =>
    none :: (m.layers.foldl (fun d l => layerOutputDims l d) dims).map some

/-- `createDeepQNetwork(h, w, stateFrames, numActions)` from
snake-dqn/dqn.js: validates the four arguments in order, then builds the
sequential model conv2d(16) → conv2d(32) → flatten → dense(256) →
dense(numActions). A thrown `Error` is an `Except.error` carrying the
message. -/
def createDeepQNetwork (h w stateFrames numActions : JSVal) : Except String Model :=
  if !(jsPosInt h) then
    .error ("Expected height to be a positive integer, but got " ++ jsToString h)
  else if !(jsPosInt w) then
    .error ("Expected width to be a positive integer, but got " ++ jsToString w)
  else if !(jsPosInt stateFrames) then
    .error ("Expected stateFrames to be a positive integer, but got " ++ jsToString w)
  else if !(jsIntGtOne numActions) then
    .error ("Expected numActions to be a integer greater than 1, but got " ++
      jsToString numActions)
  else
    .ok { layers := [
      .conv2d 16 3 1 "relu" (some [jsInt h, jsInt w, 2 * jsInt stateFrames]),
      .conv2d 32 3 1 "relu" none,
      .flatten,
      .dense 256 (some "relu"),
      .dense (jsInt numActions) none] }

/-- A weight tensor's values, flattened. -/
abbrev Weights := List (List ℚ)

/-- The mutable store of network weight variables: each network (identified by
a number) owns its own weight variables. `getWeights` reads the current
values; `setWeights` overwrites the network's own variables with the given
values, leaving every other network untouched. -/
structure NetStore where
  weights : ℕ → Weights

/-- `network.getWeights()`: the current values of the network's weights. -/
def getWeights (s : NetStore) (net : ℕ) : Weights := s.weights net

/-- `network.setWeights(ws)`: writes the values `ws` into the network's own
weight variables. -/
def setWeights (s : NetStore) (net : ℕ) (ws : Weights) : NetStore :=
  ⟨fun n => if n = net then ws else s.weights n⟩

/-- `copyWeights(destNetwork, srcNetwork)` from snake-dqn/dqn.js:
`destNetwork.setWeights(srcNetwork.getWeights())`. -/
def copyWeights (s : NetStore) (dest src : ℕ) : NetStore :=
  setWeights s dest (getWeights s src)

/-- A training step (e.g. `network.fit`) updates the trained network's own
weight variables by some function of their current values. -/
def trainStep (s : NetStore) (net : ℕ) (f : Weights → Weights) : NetStore :=
  setWeights s net (f (getWeights s net))

end SnakeDQN

/-! ## quantization/quantize_evaluate.sh -/

namespace Quantization

/-- One command executed by the shell script, with the arguments it was given
in the source. -/
inductive Cmd where
  | echo (msg : String)
  | exitCmd (code : ℕ)
  | pipInstall (pkg : String)
  | virtualenvCreate (dir : String)
  | sourceActivate (path : String)
  | converter (inputFormat outputFormat : String) (quantizationBytes : Option ℕ)
      (src dest : String)
  | rmrf (path : String)
  | yarn (args : List String)
deriving DecidableEq, Repr

/-- The state of the world the script inspects: its first argument, whether
the trained model JSON exists, whether `pip` and `virtualenv` are on the
path, and the directory name produced by `mktemp`. -/
structure Env where
  modelName : String
  modelJsonExists : Bool
  pipOnPath : Bool
  virtualenvOnPath : Bool
  venvDir : String
deriving DecidableEq, Repr

/-- Whether a command is a `tensorflowjs_converter` invocation — the only kind
of command that performs quantization. -/
def isConverterCmd : Cmd → Bool
  | .converter _ _ _ _ _ => true
  | _ => false

/-- Whether a command is a `yarn` invocation (the evaluation runs). -/
def isYarnCmd : Cmd → Bool
  | .yarn _ => true
  | _ => false

/-- The full command trace of quantization/quantize_evaluate.sh, in source
order (the script runs under `set -e`; `exitCmd` ends the trace). -/
def quantizeEvaluate (e : Env) : List Cmd :=
  if e.modelName = "" then
    [.echo "Usage: quantize_evaluate <MODEL_NAME>", .exitCmd 1]
  else
    let modelRoot := "models/" ++ e.modelName
    let modelJsonPath := modelRoot ++ "/original" ++ "/model.json"
    if !e.modelJsonExists then
      [.echo ("ERROR: Cannot find model JSON file at " ++ modelJsonPath),
       .echo "       Make sure you train and save a model with the",
       .echo "       following command first: yarn train",
       .exitCmd 1]
    else if !e.pipOnPath then
      [.echo "ERROR: Cannot find pip on path.",
       .echo "       Make sure you have python and pip installed.",
       .exitCmd 1]
    else
      (if !e.virtualenvOnPath then
        [.echo "Installing virtualenv...", .pipInstall "virtualenv"]
      else []) ++
      [.echo ("Creating virtualenv at " ++ e.venvDir ++ " ..."),
       .virtualenvCreate e.venvDir,
       .sourceActivate (e.venvDir ++ "/bin/activate"),
       .pipInstall "tensorflowjs",
       .rmrf (modelRoot ++ "/quantized-16bit"),
       .converter "tfjs_layers_model" "tfjs_layers_model" (some 2)
         modelJsonPath (modelRoot ++ "/quantized-16bit"),
       .rmrf (modelRoot ++ "/quantized-8bit"),
       .converter "tfjs_layers_model" "tfjs_layers_model" (some 1)
         modelJsonPath (modelRoot ++ "/quantized-8bit"),
       .yarn [],
       .yarn ["eval-" ++ e.modelName, modelJsonPath],
       .yarn ["eval-" ++ e.modelName, modelRoot ++ "/quantized-16bit" ++ "/model.json"],
       .yarn ["eval-" ++ e.modelName, modelRoot ++ "/quantized-8bit" ++ "/model.json"],
       .rmrf e.venvDir]

end Quantization

/-! ## cart-pole browser UI (unnamed/part_000) -/

namespace CartPoleUI

/-- Observable actions of the test-button click handler. -/
inductive Event where
  | setRandomState
  | updateCall (k : ℕ)
  | reportSteps (n : ℕ)
deriving DecidableEq, Repr

/-- The `while (!isDone)` loop of the test-button handler. `upd k` is the
boolean returned by the k-th `cartPole.update` call (true = terminal state
reached). The loop increments `steps` before each update call and reports
`steps` when the episode ends; `fuel` bounds the number of iterations we
unfold (the browser loop itself is unbounded). -/
def testLoop (upd : ℕ → Bool) : ℕ → ℕ → Option ℕ
  | _, 0 => none
  | k, fuel + 1 => if upd k then some (k + 1) else testLoop upd (k + 1) fuel

/-- The indices of the `cartPole.update` calls made by the loop, in order. -/
def testCalls (upd : ℕ → Bool) : ℕ → ℕ → List ℕ
  | _, 0 => []
  | k, fuel + 1 => k :: (if upd k then [] else testCalls upd (k + 1) fuel)

/-- The number of steps the test-button handler reports. -/
def testHandler (upd : ℕ → Bool) (fuel : ℕ) : Option ℕ := testLoop upd 0 fuel

/-- The update calls the test-button handler makes. -/
def testHandlerCalls (upd : ℕ → Bool) (fuel : ℕ) : List ℕ := testCalls upd 0 fuel

/-- The full observable trace of the test-button handler:
`cartPole.setRandomState()`, then the update calls, then the final
`Test finished. Survived _ step(s).` status message. -/
def testHandlerTrace (upd : ℕ → Bool) (fuel : ℕ) : Option (List Event) :=
  match testLoop upd 0 fuel with
  | none => none
  | some n =>
    some (.setRandomState :: (testCalls upd 0 fuel).map .updateCall ++ [.reportSteps n])

/-- A `Number.parseInt` / `Number.parseFloat` result; `none` is `NaN`. -/
def intGt : Option ℤ → ℤ → Bool
  | some v, c => decide (c < v)
  | none, _ => false

/-- `d > 0 && d < 1` on a `parseFloat` result (`NaN` fails both). -/
def ratBetween01 : Option ℚ → Bool
  | some q => decide (0 < q) && decide (q < 1)
  | none => false

/-- `${v}` for a `parseInt` result. -/
def jsIntStr : Option ℤ → String
  | some v => toString v
  | none => "NaN"

/-- `${v}` for a `parseFloat` result. -/
def jsRatStr : Option ℚ → String
  | some q => toString q
  | none => "NaN"

/-- The hyperparameter fields read by the train-button handler, already put
through `Number.parseInt` / `Number.parseFloat`. -/
structure TrainInputs where
  numIterations : Option ℤ
  gamesPerIteration : Option ℤ
  maxStepsPerGame : Option ℤ
  discountRate : Option ℚ
  learningRate : Option ℚ

/-- What the train-button handler observably did: whether it disabled the UI
on entry, how many `policyNet.train` calls it made, the final status message,
and whether the UI was re-enabled when the handler finished. -/
structure TrainOutcome where
  uiDisabledAtStart : Bool
  trainCallCount : ℕ
  statusMessage : String
  uiEnabledAtEnd : Bool
deriving DecidableEq, Repr

/-- The training `for` loop: iteration `i` calls `policyNet.train`, whose
result is the oracle `train i` (`error` = the call threw). Returns the number
of calls made and the first error, if any. -/
def runTrainLoop (train : ℕ → Except String (List ℕ)) : ℕ → ℕ → ℕ × Option String
  | done, 0 => (done, none)
  | done, rem + 1 =>
    match train done with
    | .error e => (done + 1, some e)
    | .ok _ => runTrainLoop train (done + 1) rem

/-- The `try` block of the train-button handler: the four hyperparameter
validations in source order (a failure throws an `Error` with the source's
message), then the training loop. Returns the number of `policyNet.train`
calls made and the message of the thrown error, if any. -/
def trainButtonRun (inputs : TrainInputs)
    (train : ℕ → Except String (List ℕ)) : ℕ × Option String :=
  if !(intGt inputs.numIterations 0) then
    (0, some ("Invalid number of iterations: " ++ jsIntStr inputs.numIterations))
  else if !(intGt inputs.gamesPerIteration 0) then
    (0, some ("Invalid # of games per iterations: " ++ jsIntStr inputs.gamesPerIteration))
  else if !(intGt inputs.maxStepsPerGame 1) then
    (0, some ("Invalid max. steps per game: " ++ jsIntStr inputs.maxStepsPerGame))
  else if !(ratBetween01 inputs.discountRate) then
    (0, some ("Invalid discount rate: " ++ jsRatStr inputs.discountRate))
  else
    runTrainLoop train 0 ((inputs.numIterations.getD 0).toNat)

/-- The train-button click handler: `disableUI()`, the `try` block, the
`catch` block (`logStatus` of `ERROR: ${err.message}`), and `enableUI()`,
which runs after the `try`/`catch` in every case. -/
def trainButtonHandler (inputs : TrainInputs)
    (train : ℕ → Except String (List ℕ)) : TrainOutcome :=
  match trainButtonRun inputs train with
  | (c, some e) => ⟨true, c, "ERROR: " ++ e, true⟩
  | (c, none) => ⟨true, c, "Training completed.", true⟩

end CartPoleUI

/-! ## imdb data loading (unnamed/part_002) -/

namespace Imdb

def PAD_CHAR : ℤ := 0

def OOV_CHAR : ℤ := 2

/-- `buffer.readInt32LE`: four bytes as a signed little-endian 32-bit
integer. -/
def readInt32LE (b0 b1 b2 b3 : ℕ) : ℤ :=
  let u : ℕ := b0 + 256 * b1 + 65536 * b2 + 16777216 * b3
  if u < 2 ^ 31 then (u : ℤ) else (u : ℤ) - 2 ^ 32

/-- The `while (index < numBytes)` read loop of `loadFeatures`, consuming the
buffer four bytes at a time; a trailing partial word makes `readInt32LE`
throw a `RangeError` (`none`). -/
def readInt32Words : List ℕ → Option (List ℤ)
  | [] => some []
  | b0 :: b1 :: b2 :: b3 :: rest =>
    (readInt32Words rest).map (readInt32LE b0 b1 b2 b3 :: ·)
  | _ => none

/-- `value >= numWords ? OOV_CHAR : value`. -/
def recordValue (numWords v : ℤ) : ℤ := if v ≥ numWords then OOV_CHAR else v

/-- The sequence-splitting loop of `loadFeatures`: the value 1 starts a new
sequence (the current one is pushed unless we are at `index == 0`, tracked by
`atStart`); any other value is recorded onto the current sequence; at the end
a non-empty current sequence is pushed. -/
def splitSequences (numWords : ℤ) :
    List ℤ → List (List ℤ) → List ℤ → Bool → List (List ℤ)
  | [], seqs, seq, _ => if seq.length > 0 then seqs ++ [seq] else seqs
  | v :: rest, seqs, seq, atStart =>
    if v = 1 then
      splitSequences numWords rest (if atStart then seqs else seqs ++ [seq]) [] false
    else
      splitSequences numWords rest seqs (seq ++ [recordValue numWords v]) false

/-- Pre-truncation to `maxLen`: a sequence longer than `maxLen` keeps its
last `maxLen` entries. -/
def truncatePre (maxLen : ℕ) (s : List ℤ) : List ℤ :=
  if maxLen < s.length then s.drop (s.length - maxLen) else s

/-- Pre-padding: a sequence shorter than `maxLen` is padded on the left with
`padChar` up to length `maxLen`. -/
def padTruncate (maxLen : ℕ) (padChar : ℤ) (s : List ℤ) : List ℤ :=
  List.replicate (maxLen - (truncatePre maxLen s).length) padChar ++ truncatePre maxLen s

/-- Modelled from the spec: `padSequences` is imported from
`./sequence_utils`, which is not among the source files. Per the spec the
sequences are pre-padded and pre-truncated to length `maxLen` with
`PAD_CHAR`. -/
def padSequences (seqs : List (List ℤ)) (maxLen : ℕ) (padChar : ℤ) :
    List (List ℤ) :=
  seqs.map (padTruncate maxLen padChar)

/-- `loadFeatures(filePath, numWords, maxLen)`: parse the file's bytes as
consecutive little-endian 32-bit integers, split into sequences at the
delimiter 1, record out-of-vocabulary values as `OOV_CHAR`, and pad/truncate
to `maxLen` (the rows of the returned `[numSequences, maxLen]` int32
tensor). -/
def loadFeatures (bytes : List ℕ) (numWords : ℤ) (maxLen : ℕ) :
    Option (List (List ℤ)) :=
  (readInt32Words bytes).map fun vals =>
    padSequences (splitSequences numWords vals [] [] true) maxLen PAD_CHAR

/-- `loadTargets(filePath)`: one unsigned byte per example; the rows of the
returned `[n, 1]` float32 tensor. -/
def loadTargets (bytes : List ℕ) : List ℕ := bytes

/-- The file system visible to the data loader. -/
structure FS where
  files : List (String × List ℕ)
  dirs : List String

/-- `fs.existsSync` on a file path. -/
def existsFile (fs : FS) (p : String) : Bool := (fs.files.lookup p).isSome

/-- `fs.lstatSync(p).size`. -/
def fileSize (fs : FS) (p : String) : ℕ := ((fs.files.lookup p).getD []).length

/-- `fs.existsSync` on a directory path. -/
def existsDir (fs : FS) (p : String) : Bool := fs.dirs.contains p

/-- Writing a file (`fs.createWriteStream` piped to completion). -/
def writeFile (fs : FS) (p : String) (bytes : List ℕ) : FS :=
  ⟨(p, bytes) :: fs.files, fs.dirs⟩

/-- `fs.readFileSync`; `none` = the file does not exist (ENOENT). -/
def readFile (fs : FS) (p : String) : Option (List ℕ) := fs.files.lookup p

/-- The external effects `loadData` can perform. -/
inductive Effect where
  | download (url dest : String)
  | extractZip (src destDir : String)
deriving DecidableEq, Repr

def DATA_ZIP_URL : String :=
  "https://storage.googleapis.com/learnjs-data/imdb/imdb_tfjs_data.zip"

/-- `path.basename`: the part after the last `/`. -/
def basename (p : String) : String :=
  ⟨(p.data.reverse.takeWhile (· ≠ '/')).reverse⟩

/-- `path.join` of two components. -/
def pathJoin (a b : String) : String := a ++ "/" ++ b

/-- `s.slice(0, s.length - n)`. -/
def sliceDropEnd (s : String) (n : ℕ) : String :=
  ⟨s.data.take (s.data.length - n)⟩

/-- `path.join(os.tmpdir(), path.basename(DATA_ZIP_URL))`. -/
def zipDestPath (tmpDir : String) : String := pathJoin tmpDir (basename DATA_ZIP_URL)

/-- `zipDownloadDest.slice(0, zipDownloadDest.length - 4)`: the `.zip`
suffix removed. -/
def extractDirPath (tmpDir : String) : String := sliceDropEnd (zipDestPath tmpDir) 4

/-- `maybeDownload(sourceURL, destPath)`: download (from the network oracle
`net`) only when the destination file does not exist or has size zero. -/
def maybeDownload (net : String → List ℕ) (fs : FS) (url dest : String) :
    FS × List Effect :=
  if !existsFile fs dest || fileSize fs dest == 0 then
    (writeFile fs dest (net url), [.download url dest])
  else (fs, [])

/-- `maybeExtract(sourcePath, destDir)`: extract (via the unzip oracle,
writing each entry under `destDir`) only when the extraction directory does
not already exist. -/
def maybeExtract (unzip : List ℕ → List (String × List ℕ)) (fs : FS)
    (srcPath destDir : String) : FS × List Effect :=
  if existsDir fs destDir then (fs, [])
  else
    let entries := (unzip ((readFile fs srcPath).getD [])).map
      fun en => (pathJoin destDir en.1, en.2)
    (⟨entries ++ fs.files, destDir :: fs.dirs⟩, [.extractZip srcPath destDir])

/-- `maybeDownloadAndExtract()`; also returns the data directory. -/
def maybeDownloadAndExtract (net : String → List ℕ)
    (unzip : List ℕ → List (String × List ℕ)) (tmpDir : String) (fs : FS) :
    FS × List Effect × String :=
  let r1 := maybeDownload net fs DATA_ZIP_URL (zipDestPath tmpDir)
  let r2 := maybeExtract unzip r1.1 (zipDestPath tmpDir) (extractDirPath tmpDir)
  (r2.1, r1.2 ++ r2.2, extractDirPath tmpDir)

/-- The four tensors `loadData` returns, as their rows. -/
structure LoadedData where
  xTrain : List (List ℤ)
  yTrain : List ℕ
  xTest : List (List ℤ)
  yTest : List ℕ
deriving DecidableEq, Repr

/-- The body of `loadData` after `maybeDownloadAndExtract`: load the train
and test features and targets from the data directory and run the two
`tf.util.assert` checks (a failed assertion or a read error throws). -/
def assembleData (fs : FS) (dataDir : String) (numWords : ℤ) (len : ℕ) :
    Except String LoadedData :=
  match readFile fs (pathJoin dataDir "imdb_train_data.bin") with
  | none => .error "ENOENT: imdb_train_data.bin"
  | some trainBytes =>
    match loadFeatures trainBytes numWords len with
    | none => .error "RangeError: reading past the end of imdb_train_data.bin"
    | some xTrain =>
      match readFile fs (pathJoin dataDir "imdb_test_data.bin") with
      | none => .error "ENOENT: imdb_test_data.bin"
      | some testBytes =>
        match loadFeatures testBytes numWords len with
        | none => .error "RangeError: reading past the end of imdb_test_data.bin"
        | some xTest =>
          match readFile fs (pathJoin dataDir "imdb_train_targets.bin") with
          | none => .error "ENOENT: imdb_train_targets.bin"
          | some trainT =>
            match readFile fs (pathJoin dataDir "imdb_test_targets.bin") with
            | none => .error "ENOENT: imdb_test_targets.bin"
            | some testT =>
              if xTrain.length ≠ (loadTargets trainT).length then
                .error "Mismatch in number of examples between xTrain and yTrain"
              else if xTest.length ≠ (loadTargets testT).length then
                .error "Mismatch in number of examples between xTest and yTest"
              else .ok ⟨xTrain, loadTargets trainT, xTest, loadTargets testT⟩

/-- `loadData(numWords, len)`: maybe download, maybe extract, then load the
four tensors and assert the row-count equalities. Returns the final file
system, the effects performed, and the result. -/
def loadData (net : String → List ℕ) (unzip : List ℕ → List (String × List ℕ))
    (tmpDir : String) (fs : FS) (numWords : ℤ) (len : ℕ) :
    FS × List Effect × Except String LoadedData :=
  let r := maybeDownloadAndExtract net unzip tmpDir fs
  (r.1, r.2.1, assembleData r.1 r.2.2 numWords len)

end Imdb

/-! ## date-conversion browser front end (unnamed/part_001) -/

namespace DateConversion

/-- `String.prototype.trim()`: whitespace removed from both ends. -/
def jsTrim (s : String) : String :=
  ⟨((s.data.dropWhile Char.isWhitespace).reverse.dropWhile Char.isWhitespace).reverse⟩

/-- `inputDateString.value.trim().toUpperCase()`. -/
def trimUpper (s : String) : String := ⟨(jsTrim s).data.map Char.toUpper⟩

/-- What the `change` handler observably did: the value written to the
output-date-string field and the string passed to `runSeq2SeqInference`, if
inference ran at all. -/
structure HandlerResult where
  outputValue : String
  inferredInput : Option String
deriving DecidableEq, Repr

/-- The `change` handler of the input-date-string field. `inputLength` is the
`INPUT_LENGTH` constant imported from `./date_format` (not among the source
files, so kept as a parameter); `infer` is `runSeq2SeqInference` (`error` =
the call threw, in which case the output field shows the error message). -/
def changeHandler (inputLength : ℕ) (infer : String → Except String String)
    (value : String) : HandlerResult :=
  let s0 := trimUpper value
  if s0.length < 6 then ⟨"", none⟩
  else
    let s := if inputLength < s0.length then s0.take inputLength else s0
    match infer s with
    | .ok out => ⟨out, some s⟩
    | .error msg => ⟨msg, some s⟩

end DateConversion

/-! ## jena-weather/train-rnn.js -/

namespace JenaWeather

/-- Command-line values provided by the user; `none` = flag absent, so the
argparse default applies. -/
structure ArgOverrides where
  modelType : Option String := none
  gpu : Option Bool := none
  lookBack : Option ℤ := none
  step : Option ℤ := none
  delay : Option ℤ := none
  normalize : Option Bool := none
  includeDateTime : Option Bool := none
  batchSize : Option ℤ := none
  epochs : Option ℤ := none
  displayEvery : Option ℤ := none

/-- The parsed arguments object. -/
structure Args where
  modelType : String
  gpu : Bool
  lookBack : ℤ
  step : ℤ
  delay : ℤ
  normalize : Bool
  includeDateTime : Bool
  batchSize : ℤ
  epochs : ℤ
  displayEvery : ℤ
deriving DecidableEq, Repr

/-- `parseArguments()` with the default values from the source:
`lookBack = 10 * 24 * 6`, `step = 6`, `delay = 24 * 6`, `batchSize = 128`,
`epochs = 20`, `displayEvery = 10`, `modelType = 'gru'`. -/
def parseArguments (o : ArgOverrides) : Args where
  modelType := o.modelType.getD "gru"
  gpu := o.gpu.getD false
  lookBack := o.lookBack.getD (10 * 24 * 6)
  step := o.step.getD 6
  delay := o.delay.getD (24 * 6)
  normalize := o.normalize.getD true
  includeDateTime := o.includeDateTime.getD false
  batchSize := o.batchSize.getD 128
  epochs := o.epochs.getD 20
  displayEvery := o.displayEvery.getD 10

/-- The `buildModel(...)` call that `main` makes. -/
structure BuildModelCall where
  modelType : String
  numTimeSteps : ℤ
  numFeatures : ℕ
deriving DecidableEq, Repr

/-- `main()`: parse the arguments, load the Jena weather data (whose column
names are the oracle `columnNames`), and call
`buildModel(args.modelType, Math.floor(args.lookBack / args.step),
numFeatures)`; training then proceeds with the parsed arguments. -/
def main (o : ArgOverrides) (columnNames : List String) : BuildModelCall :=
  let args := parseArguments o
  { modelType := args.modelType,
    numTimeSteps := Int.fdiv args.lookBack args.step,
    numFeatures := columnNames.length }

end JenaWeather

/-! ## Theorems -/

open SnakeDQN in
/-- Claim C1: for all positive integers `h`, `w`, `stateFrames` and every
integer `numActions > 1`, `createDeepQNetwork` returns a sequential model
consisting of exactly two conv2d layers, one flatten layer and two dense
layers, whose input shape is `[null, h, w, 2*stateFrames]` and whose output
shape is `[null, numActions]`. -/
theorem C1_createDeepQNetwork_shapes (h w sf na : ℤ)
    (hh : 0 < h) (hw : 0 < w) (hsf : 0 < sf) (hna : 1 < na) :
    ∃ m : Model,
      createDeepQNetwork (.num h) (.num w) (.num sf) (.num na) = .ok m ∧
      m.layers = [
        .conv2d 16 3 1 "relu" (some [h, w, 2 * sf]),
        .conv2d 32 3 1 "relu" none,
        .flatten,
        .dense 256 (some "relu"),
        .dense na none] ∧
      modelInputShape m = some [none, some h, some w, some (2 * sf)] ∧
      modelOutputShape m = some [none, some na] := by
  have hden : ∀ z : ℤ, ((z : ℚ).den == 1) = true := by
    intro z; simp [Rat.den_intCast]
  have hnum : ∀ z : ℤ, (z : ℚ).num = z := by
    intro z; simp
  have hposh : jsPosInt (.num (h : ℚ)) = true := by
    simp [jsPosInt, jsIsInteger, jsGt, hden]
    exact_mod_cast hh
  have hposw : jsPosInt (.num (w : ℚ)) = true := by
    simp [jsPosInt, jsIsInteger, jsGt, hden]
    exact_mod_cast hw
  have hpossf : jsPosInt (.num (sf : ℚ)) = true := by
    simp [jsPosInt, jsIsInteger, jsGt, hden]
    exact_mod_cast hsf
  have hgtna : jsIntGtOne (.num (na : ℚ)) = true := by
    simp [jsIntGtOne, jsIsInteger, jsGt, hden]
    exact_mod_cast hna
  refine ⟨{ layers := [
      .conv2d 16 3 1 "relu" (some [h, w, 2 * sf]),
      .conv2d 32 3 1 "relu" none,
      .flatten,
      .dense 256 (some "relu"),
      .dense na none] }, ?_, ?_, ?_, ?_⟩
  · simp [createDeepQNetwork, hposh, hposw, hpossf, hgtna, jsInt, hnum]
  · rfl
  · simp [modelInputShape, modelInputDims]
  · simp [modelOutputShape, modelInputDims, layerOutputDims, List.foldl,
      List.prod]

open SnakeDQN in
/-- Claim C1 witness at the concrete test input h = 9, w = 9, stateFrames = 1,
numActions = 4. -/
theorem C1_createDeepQNetwork_shapes_witness :
    ∃ m : Model,
      createDeepQNetwork (.num 9) (.num 9) (.num 1) (.num 4) = .ok m ∧
      m.layers = [
        .conv2d 16 3 1 "relu" (some [9, 9, 2 * 1]),
        .conv2d 32 3 1 "relu" none,
        .flatten,
        .dense 256 (some "relu"),
        .dense 4 none] ∧
      modelInputShape m = some [none, some 9, some 9, some (2 * 1)] ∧
      modelOutputShape m = some [none, some 4] := by
  have := C1_createDeepQNetwork_shapes 9 9 1 4
    (by decide) (by decide) (by decide) (by decide)
  exact_mod_cast this

open SnakeDQN in
/-- Claim C2: `createDeepQNetwork` throws exactly when one of the four
argument validations fails; the checks run in the order height, width,
stateFrames, numActions, and the message of the thrown error names the first
failing parameter. -/
theorem C2_createDeepQNetwork_validation (h w sf na : JSVal) :
    ((∃ e, createDeepQNetwork h w sf na = .error e) ↔
      (jsPosInt h = false ∨ jsPosInt w = false ∨ jsPosInt sf = false ∨
        jsIntGtOne na = false))
    ∧ (jsPosInt h = false →
        createDeepQNetwork h w sf na =
          .error ("Expected height to be a positive integer, but got " ++ jsToString h))
    ∧ (jsPosInt h = true → jsPosInt w = false →
        createDeepQNetwork h w sf na =
          .error ("Expected width to be a positive integer, but got " ++ jsToString w))
    ∧ (jsPosInt h = true → jsPosInt w = true → jsPosInt sf = false →
        createDeepQNetwork h w sf na =
          .error ("Expected stateFrames to be a positive integer, but got " ++ jsToString w))
    ∧ (jsPosInt h = true → jsPosInt w = true → jsPosInt sf = true →
        jsIntGtOne na = false →
        createDeepQNetwork h w sf na =
          .error ("Expected numActions to be a integer greater than 1, but got " ++
            jsToString na)) := by
  cases hh : jsPosInt h <;> cases hw : jsPosInt w <;> cases hsf : jsPosInt sf <;>
    cases hna : jsIntGtOne na <;>
    simp [createDeepQNetwork, hh, hw, hsf, hna]

open SnakeDQN in
/-- Claim C2 witness: a non-numeric height makes `createDeepQNetwork` throw an
error whose message names `height`, matching the unit test
`createDeepQNetwork('10', 10, 1, 4)`. -/
theorem C2_createDeepQNetwork_validation_witness :
    createDeepQNetwork (.str "10") (.num 10) (.num 1) (.num 4) =
      .error ("Expected height to be a positive integer, but got 10") := by
  have := (C2_createDeepQNetwork_validation (.str "10") (.num 10) (.num 1)
    (.num 4)).2.1 (by decide)
  simpa [jsToString] using this

open SnakeDQN in
/-- Claim C3: after `copyWeights(destNetwork, srcNetwork)` every weight of the
destination equals the corresponding weight of the source, and the copy is by
value: a later training step on the source leaves the destination's weights
unchanged. -/
theorem C3_copyWeights_by_value (s : NetStore) (dest src : ℕ) :
    getWeights (copyWeights s dest src) dest = getWeights (copyWeights s dest src) src
    ∧ (dest ≠ src → ∀ f,
        getWeights (trainStep (copyWeights s dest src) src f) dest =
          getWeights (copyWeights s dest src) dest) := by
  constructor
  · by_cases hds : src = dest <;>
      simp [copyWeights, getWeights, setWeights, hds]
  · intro hne f
    simp [copyWeights, getWeights, setWeights, trainStep, hne]

open SnakeDQN in
/-- Claim C3 witness on a concrete two-network store: network 0 is the
destination, network 1 the source, and a training step that doubles the
source's weights does not change the destination. -/
theorem C3_copyWeights_by_value_witness :
    getWeights (copyWeights ⟨fun n => [[(n : ℚ)]]⟩ 0 1) 0 =
      getWeights (copyWeights ⟨fun n => [[(n : ℚ)]]⟩ 0 1) 1
    ∧ getWeights (trainStep (copyWeights ⟨fun n => [[(n : ℚ)]]⟩ 0 1) 1
          (fun ws => ws.map (fun t => t.map (2 * ·)))) 0 =
        getWeights (copyWeights ⟨fun n => [[(n : ℚ)]]⟩ 0 1) 0 := by
  have := C3_copyWeights_by_value ⟨fun n => [[(n : ℚ)]]⟩ 0 1
  exact ⟨this.1, this.2 (by decide) _⟩

open Quantization in
/-- Claim C4: quantization is done only by the external
`tensorflowjs_converter` tool — the script's trace contains no converter
invocation before the two recorded ones, which use `--quantization_bytes 2`
(16-bit) and then `--quantization_bytes 1` (8-bit) — and the model is then
evaluated at full precision, 16-bit, and 8-bit, in that order. -/
theorem C4_quantize_evaluate_trace (e : Env)
    (hname : e.modelName ≠ "") (hjson : e.modelJsonExists = true)
    (hpip : e.pipOnPath = true) :
    ∃ pre,
      quantizeEvaluate e = pre ++ [
        .rmrf ("models/" ++ e.modelName ++ "/quantized-16bit"),
        .converter "tfjs_layers_model" "tfjs_layers_model" (some 2)
          ("models/" ++ e.modelName ++ "/original" ++ "/model.json")
          ("models/" ++ e.modelName ++ "/quantized-16bit"),
        .rmrf ("models/" ++ e.modelName ++ "/quantized-8bit"),
        .converter "tfjs_layers_model" "tfjs_layers_model" (some 1)
          ("models/" ++ e.modelName ++ "/original" ++ "/model.json")
          ("models/" ++ e.modelName ++ "/quantized-8bit"),
        .yarn [],
        .yarn ["eval-" ++ e.modelName,
          "models/" ++ e.modelName ++ "/original" ++ "/model.json"],
        .yarn ["eval-" ++ e.modelName,
          "models/" ++ e.modelName ++ "/quantized-16bit" ++ "/model.json"],
        .yarn ["eval-" ++ e.modelName,
          "models/" ++ e.modelName ++ "/quantized-8bit" ++ "/model.json"],
        .rmrf e.venvDir] ∧
      ∀ c ∈ pre, isConverterCmd c = false ∧ isYarnCmd c = false := by
  refine ⟨(if !e.virtualenvOnPath then
      [.echo "Installing virtualenv...", .pipInstall "virtualenv"]
    else []) ++
    [.echo ("Creating virtualenv at " ++ e.venvDir ++ " ..."),
     .virtualenvCreate e.venvDir,
     .sourceActivate (e.venvDir ++ "/bin/activate"),
     .pipInstall "tensorflowjs"], ?_, ?_⟩
  · simp [quantizeEvaluate, hname, hjson, hpip]
  · intro c hc
    rcases List.mem_append.mp hc with hc | hc
    · cases hv : e.virtualenvOnPath <;> simp [hv] at hc <;>
        rcases hc with rfl | rfl <;> simp [isConverterCmd, isYarnCmd]
    · simp at hc
      rcases hc with rfl | rfl | rfl | rfl <;> simp [isConverterCmd, isYarnCmd]

open Quantization in
/-- Claim C4 witness at a concrete environment with model name `mnist`. -/
theorem C4_quantize_evaluate_trace_witness :
    ∃ pre,
      quantizeEvaluate ⟨"mnist", true, true, true, "/tmp/q_venv"⟩ = pre ++ [
        .rmrf ("models/" ++ "mnist" ++ "/quantized-16bit"),
        .converter "tfjs_layers_model" "tfjs_layers_model" (some 2)
          ("models/" ++ "mnist" ++ "/original" ++ "/model.json")
          ("models/" ++ "mnist" ++ "/quantized-16bit"),
        .rmrf ("models/" ++ "mnist" ++ "/quantized-8bit"),
        .converter "tfjs_layers_model" "tfjs_layers_model" (some 1)
          ("models/" ++ "mnist" ++ "/original" ++ "/model.json")
          ("models/" ++ "mnist" ++ "/quantized-8bit"),
        .yarn [],
        .yarn ["eval-" ++ "mnist", "models/" ++ "mnist" ++ "/original" ++ "/model.json"],
        .yarn ["eval-" ++ "mnist", "models/" ++ "mnist" ++ "/quantized-16bit" ++ "/model.json"],
        .yarn ["eval-" ++ "mnist", "models/" ++ "mnist" ++ "/quantized-8bit" ++ "/model.json"],
        .rmrf "/tmp/q_venv"] ∧
      ∀ c ∈ pre, isConverterCmd c = false ∧ isYarnCmd c = false :=
  C4_quantize_evaluate_trace ⟨"mnist", true, true, true, "/tmp/q_venv"⟩
    (by decide) rfl rfl

namespace CartPoleUI

/-- Shifting a mapped range by one: the calls `k, k+1, ..., k+n` split into
the first call `k` and the calls `k+1, ..., k+n`. -/
theorem map_add_range_shift (k n : ℕ) :
    (List.range (n + 1)).map (k + ·) = k :: (List.range n).map (k + 1 + ·) := by
  rw [List.range_succ_eq_map, List.map_cons, List.map_map]
  simp only [Nat.add_zero]
  congr 1
  apply List.map_congr_left
  intro j _
  simp only [Function.comp_apply]
  omega

/-- If the first `n` update results starting at call index `k` are false and
the next is true, the loop stops right after that call and makes exactly the
calls `k, k+1, ..., k+n`. -/
theorem testLoop_spec (upd : ℕ → Bool) :
    ∀ n k fuel, (∀ j, j < n → upd (k + j) = false) → upd (k + n) = true →
      n < fuel →
      testLoop upd k fuel = some (k + n + 1) ∧
        testCalls upd k fuel = (List.range (n + 1)).map (k + ·) := by
  intro n
  induction n with
  | zero =>
    intro k fuel _ htrue hfuel
    match fuel, hfuel with
    | f + 1, _ =>
      simp at htrue
      simp [testLoop, testCalls, htrue, List.range_succ]
  | succ n ih =>
    intro k fuel hfalse htrue hfuel
    match fuel, hfuel with
    | f + 1, hfuel =>
      have hk : upd k = false := by simpa using hfalse 0 (Nat.succ_pos n)
      have hrec := ih (k + 1) f
        (fun j hj => by
          have := hfalse (j + 1) (by omega)
          simpa [Nat.add_assoc, Nat.add_comm 1 j] using this)
        (by
          have : k + 1 + n = k + (n + 1) := by omega
          rw [this]; exact htrue)
        (by omega)
      constructor
      · rw [testLoop, hk]
        simp only [Bool.false_eq_true, if_false]
        rw [hrec.1]
        congr 1
        omega
      · rw [testCalls, hk]
        simp only [Bool.false_eq_true, if_false]
        rw [hrec.2, map_add_range_shift k (n + 1)]

end CartPoleUI

open CartPoleUI in
/-- Claim C5: the test-button handler runs exactly one episode: it resets the
cart-pole to a random state, calls `cartPole.update` once per step until the
first call that returns true (the terminal state), makes no update call after
that, and reports the number of steps survived (= the number of update
calls). -/
theorem C5_testButton_one_episode (upd : ℕ → Bool) (N fuel : ℕ)
    (hN : upd N = true) (hfuel : N < fuel) :
    ∃ n, n ≤ N ∧ upd n = true ∧ (∀ k, k < n → upd k = false) ∧
      testHandler upd fuel = some (n + 1) ∧
      testHandlerCalls upd fuel = List.range (n + 1) ∧
      testHandlerTrace upd fuel =
        some (.setRandomState ::
          (List.range (n + 1)).map Event.updateCall ++ [.reportSteps (n + 1)]) := by
  have hex : ∃ m, upd m = true := ⟨N, hN⟩
  refine ⟨Nat.find hex, Nat.find_min' hex hN, Nat.find_spec hex, ?_, ?_, ?_, ?_⟩
  · intro k hk
    have := Nat.find_min hex hk
    simpa using this
  all_goals
    have hspec := testLoop_spec upd (Nat.find hex) 0 fuel
      (fun j hj => by simpa using Nat.find_min hex hj)
      (by simpa using Nat.find_spec hex)
      (lt_of_le_of_lt (Nat.find_min' hex hN) hfuel)
  · simpa [testHandler] using hspec.1
  · have := hspec.2
    simpa [testHandlerCalls] using this
  · have h1 := hspec.1
    have h2 := hspec.2
    simp only [testHandlerTrace, testHandler] at *
    rw [h1, h2]
    simp

open CartPoleUI in
/-- Claim C5 witness: an episode whose third update call (index 2) reaches the
terminal state; the handler reports 3 steps and makes update calls 0, 1, 2. -/
theorem C5_testButton_one_episode_witness :
    ∃ n, n ≤ 2 ∧ (fun k => decide (k = 2)) n = true ∧
      (∀ k, k < n → (fun k => decide (k = 2)) k = false) ∧
      testHandler (fun k => decide (k = 2)) 9 = some (n + 1) ∧
      testHandlerCalls (fun k => decide (k = 2)) 9 = List.range (n + 1) ∧
      testHandlerTrace (fun k => decide (k = 2)) 9 =
        some (.setRandomState ::
          (List.range (n + 1)).map Event.updateCall ++ [.reportSteps (n + 1)]) :=
  C5_testButton_one_episode (fun k => decide (k = 2)) 2 9 (by decide) (by decide)

open CartPoleUI in
/-- Claim C9: the train-button handler validates its hyperparameters in
source order; when iterations ≤ 0, or games per iteration ≤ 0, or max steps
per game ≤ 1, or the discount rate is not strictly between 0 and 1 (NaN
included), it reports an error and makes no `policyNet.train` call; and in
every case — validation failure, training error or success — the UI is
disabled on entry and re-enabled when the handler finishes. -/
theorem C9_trainButton_validation (inputs : TrainInputs)
    (train : ℕ → Except String (List ℕ)) :
    (trainButtonHandler inputs train).uiDisabledAtStart = true ∧
    (trainButtonHandler inputs train).uiEnabledAtEnd = true ∧
    ((intGt inputs.numIterations 0 = false ∨
      intGt inputs.gamesPerIteration 0 = false ∨
      intGt inputs.maxStepsPerGame 1 = false ∨
      ratBetween01 inputs.discountRate = false) →
      (trainButtonHandler inputs train).trainCallCount = 0 ∧
        ∃ msg, (trainButtonHandler inputs train).statusMessage = "ERROR: " ++ msg) := by
  have hui : (trainButtonHandler inputs train).uiDisabledAtStart = true ∧
      (trainButtonHandler inputs train).uiEnabledAtEnd = true := by
    rcases hr : trainButtonRun inputs train with ⟨c, err⟩
    cases err <;> simp [trainButtonHandler, hr]
  refine ⟨hui.1, hui.2, ?_⟩
  intro hbad
  have hrun : ∃ m, trainButtonRun inputs train = (0, some m) := by
    cases h1 : intGt inputs.numIterations 0 with
    | false =>
      exact ⟨"Invalid number of iterations: " ++ jsIntStr inputs.numIterations,
        by simp [trainButtonRun, h1]⟩
    | true =>
      cases h2 : intGt inputs.gamesPerIteration 0 with
      | false =>
        exact ⟨"Invalid # of games per iterations: " ++ jsIntStr inputs.gamesPerIteration,
          by simp [trainButtonRun, h1, h2]⟩
      | true =>
        cases h3 : intGt inputs.maxStepsPerGame 1 with
        | false =>
          exact ⟨"Invalid max. steps per game: " ++ jsIntStr inputs.maxStepsPerGame,
            by simp [trainButtonRun, h1, h2, h3]⟩
        | true =>
          cases h4 : ratBetween01 inputs.discountRate with
          | false =>
            exact ⟨"Invalid discount rate: " ++ jsRatStr inputs.discountRate,
              by simp [trainButtonRun, h1, h2, h3, h4]⟩
          | true =>
            rw [h1, h2, h3, h4] at hbad
            simp at hbad
  rcases hrun with ⟨m, hm⟩
  refine ⟨?_, m, ?_⟩ <;> simp [trainButtonHandler, hm]

open CartPoleUI in
/-- Claim C9 witness: a NaN iteration count (`Number.parseInt` of a
non-numeric field) is rejected, no training happens, and the UI is disabled
then re-enabled. -/
theorem C9_trainButton_validation_witness :
    (trainButtonHandler ⟨none, some 10, some 100, some (1/2), some (1/20)⟩
        (fun _ => .ok [5])).uiDisabledAtStart = true ∧
    (trainButtonHandler ⟨none, some 10, some 100, some (1/2), some (1/20)⟩
        (fun _ => .ok [5])).uiEnabledAtEnd = true ∧
    ((trainButtonHandler ⟨none, some 10, some 100, some (1/2), some (1/20)⟩
        (fun _ => .ok [5])).trainCallCount = 0 ∧
      ∃ msg, (trainButtonHandler ⟨none, some 10, some 100, some (1/2), some (1/20)⟩
        (fun _ => .ok [5])).statusMessage = "ERROR: " ++ msg) := by
  have h := C9_trainButton_validation ⟨none, some 10, some 100, some (1/2), some (1/20)⟩
    (fun _ => .ok [5])
  exact ⟨h.1, h.2.1, h.2.2 (Or.inl rfl)⟩

namespace Imdb

/-- Every recorded non-delimiter value is `OOV_CHAR` or below the vocabulary
bound. -/
theorem recordValue_ok (numWords v : ℤ) :
    recordValue numWords v = OOV_CHAR ∨ recordValue numWords v < numWords := by
  unfold recordValue
  split
  · exact Or.inl rfl
  · rename_i h
    exact Or.inr (by omega)

/-- Invariant of the sequence-splitting loop: if every entry already
accumulated is `OOV_CHAR` or below `numWords`, so is every entry of every
sequence the loop returns. -/
theorem splitSequences_ok (numWords : ℤ) (vals : List ℤ) :
    ∀ (seqs : List (List ℤ)) (seq : List ℤ) (atStart : Bool),
      (∀ s ∈ seqs, ∀ e ∈ s, e = OOV_CHAR ∨ e < numWords) →
      (∀ e ∈ seq, e = OOV_CHAR ∨ e < numWords) →
      ∀ s ∈ splitSequences numWords vals seqs seq atStart,
        ∀ e ∈ s, e = OOV_CHAR ∨ e < numWords := by
  induction vals with
  | nil =>
    intro seqs seq atStart hseqs hseq s hs
    unfold splitSequences at hs
    split at hs
    · rcases List.mem_append.mp hs with h | h
      · exact hseqs s h
      · simp at h
        subst h
        exact hseq
    · exact hseqs s hs
  | cons v rest ih =>
    intro seqs seq atStart hseqs hseq s hs
    unfold splitSequences at hs
    split at hs
    · refine ih _ [] false ?_ (by simp) s hs
      intro t ht
      cases atStart with
      | false =>
        simp at ht
        rcases ht with h | h
        · exact hseqs t h
        · subst h
          exact hseq
      | true =>
        simp at ht
        exact hseqs t ht
    · refine ih _ _ false hseqs ?_ s hs
      intro e he
      rcases List.mem_append.mp he with h | h
      · exact hseq e h
      · simp at h
        subst h
        exact recordValue_ok numWords v

/-- The length of a pre-truncated sequence. -/
theorem truncatePre_length (maxLen : ℕ) (s : List ℤ) :
    (truncatePre maxLen s).length = min maxLen s.length := by
  unfold truncatePre
  split <;> simp <;> omega

/-- Every padded row has length exactly `maxLen`. -/
theorem padTruncate_length (maxLen : ℕ) (padChar : ℤ) (s : List ℤ) :
    (padTruncate maxLen padChar s).length = maxLen := by
  unfold padTruncate
  simp [truncatePre_length]

/-- Pre-truncation only keeps entries of the original sequence. -/
theorem truncatePre_subset (maxLen : ℕ) (s : List ℤ) (e : ℤ)
    (h : e ∈ truncatePre maxLen s) : e ∈ s := by
  unfold truncatePre at h
  split at h
  · exact List.mem_of_mem_drop h
  · exact h

/-- Every entry of a padded row is the pad character or an entry of the
original sequence. -/
theorem padTruncate_mem (maxLen : ℕ) (padChar : ℤ) (s : List ℤ) (e : ℤ)
    (h : e ∈ padTruncate maxLen padChar s) : e = padChar ∨ e ∈ s := by
  unfold padTruncate at h
  rcases List.mem_append.mp h with h | h
  · exact Or.inl (List.eq_of_mem_replicate h)
  · exact Or.inr (truncatePre_subset maxLen s e h)

end Imdb

open Imdb in
/-- Claim C6: `loadFeatures` parses the file as consecutive little-endian
32-bit integers, splits sequences at the delimiter value 1, records
out-of-vocabulary values as `OOV_CHAR`, and pre-pads/pre-truncates each
sequence to `maxLen` with `PAD_CHAR`, so the result has one row of length
`maxLen` per sequence and every entry is 0, 2, or an integer below
`numWords`. -/
theorem C6_loadFeatures_entries (bytes : List ℕ) (numWords : ℤ) (maxLen : ℕ)
    (rows : List (List ℤ))
    (h : loadFeatures bytes numWords maxLen = some rows) :
    (∃ vals, readInt32Words bytes = some vals ∧
      rows = padSequences (splitSequences numWords vals [] [] true) maxLen PAD_CHAR ∧
      rows.length = (splitSequences numWords vals [] [] true).length) ∧
    ∀ row ∈ rows, row.length = maxLen ∧
      ∀ e ∈ row, e = PAD_CHAR ∨ e = OOV_CHAR ∨ e < numWords := by
  unfold loadFeatures at h
  cases hv : readInt32Words bytes with
  | none =>
    rw [hv] at h
    simp at h
  | some vals =>
    rw [hv] at h
    simp only [Option.map_some', Option.some.injEq] at h
    subst h
    constructor
    · exact ⟨vals, rfl, rfl, by simp [padSequences]⟩
    · intro row hrow
      rcases List.mem_map.mp hrow with ⟨s, hs, heq⟩
      subst heq
      refine ⟨padTruncate_length maxLen PAD_CHAR s, ?_⟩
      intro e he
      rcases padTruncate_mem maxLen PAD_CHAR s e he with h | h
      · exact Or.inl h
      · rcases splitSequences_ok numWords vals [] [] true (by simp) (by simp)
          s hs e h with h2 | h2
        · exact Or.inr (Or.inl h2)
        · exact Or.inr (Or.inr h2)

open Imdb in
/-- Claim C6 witness: the byte stream 1, 5, 1, 3 (as little-endian int32
words) with `numWords = 4` and `maxLen = 3` yields the two padded rows
`[0, 0, 2]` (5 is out of vocabulary) and `[0, 0, 3]`. -/
theorem C6_loadFeatures_entries_witness :
    (∃ vals, readInt32Words [1,0,0,0, 5,0,0,0, 1,0,0,0, 3,0,0,0] = some vals ∧
      [[0,0,2],[0,0,3]] =
        padSequences (splitSequences 4 vals [] [] true) 3 PAD_CHAR ∧
      ([[0,0,2],[0,0,3]] : List (List ℤ)).length =
        (splitSequences 4 vals [] [] true).length) ∧
    ∀ row ∈ ([[0,0,2],[0,0,3]] : List (List ℤ)), row.length = 3 ∧
      ∀ e ∈ row, e = PAD_CHAR ∨ e = OOV_CHAR ∨ e < 4 :=
  C6_loadFeatures_entries [1,0,0,0, 5,0,0,0, 1,0,0,0, 3,0,0,0] 4 3
    [[0,0,2],[0,0,3]] (by decide)

namespace Imdb

/-- `maybeDownload` emits its download effect exactly when the destination
file is missing or empty. -/
theorem maybeDownload_effect (net : String → List ℕ) (fs : FS)
    (url dest : String) :
    Effect.download url dest ∈ (maybeDownload net fs url dest).2 ↔
      (existsFile fs dest = false ∨ fileSize fs dest = 0) := by
  unfold maybeDownload
  by_cases h : (!existsFile fs dest || fileSize fs dest == 0) = true
  · rw [if_pos h]
    simp only [Bool.or_eq_true, Bool.not_eq_true', beq_iff_eq] at h
    simpa using h
  · rw [if_neg h]
    simp only [Bool.or_eq_true, Bool.not_eq_true', beq_iff_eq] at h
    constructor
    · intro hmem
      exact absurd hmem (List.not_mem_nil _)
    · intro hrhs
      exact absurd hrhs h

/-- `maybeExtract` emits its extraction effect exactly when the extraction
directory is missing. -/
theorem maybeExtract_effect (unzip : List ℕ → List (String × List ℕ)) (fs : FS)
    (srcPath destDir : String) :
    Effect.extractZip srcPath destDir ∈ (maybeExtract unzip fs srcPath destDir).2 ↔
      existsDir fs destDir = false := by
  unfold maybeExtract
  by_cases h : existsDir fs destDir = true
  · rw [if_pos h]
    constructor
    · intro hmem
      exact absurd hmem (List.not_mem_nil _)
    · intro hrhs
      rw [h] at hrhs
      exact absurd hrhs (by simp)
  · rw [if_neg h]
    simp only [Bool.not_eq_true] at h
    simpa using h

/-- `maybeDownload` performs no extraction. -/
theorem maybeDownload_no_extract (net : String → List ℕ) (fs : FS)
    (url dest srcPath destDir : String) :
    Effect.extractZip srcPath destDir ∉ (maybeDownload net fs url dest).2 := by
  unfold maybeDownload
  split <;> simp

/-- `maybeExtract` performs no download. -/
theorem maybeExtract_no_download (unzip : List ℕ → List (String × List ℕ))
    (fs : FS) (srcPath destDir url dest : String) :
    Effect.download url dest ∉ (maybeExtract unzip fs srcPath destDir).2 := by
  unfold maybeExtract
  split <;> simp

/-- Downloading a file does not change the set of directories. -/
theorem maybeDownload_dirs (net : String → List ℕ) (fs : FS)
    (url dest p : String) :
    existsDir (maybeDownload net fs url dest).1 p = existsDir fs p := by
  unfold maybeDownload
  split <;> rfl

/-- If `assembleData` succeeds, both row-count assertions held. -/
theorem assembleData_ok (fs : FS) (dataDir : String) (numWords : ℤ) (len : ℕ)
    (d : LoadedData) (h : assembleData fs dataDir numWords len = .ok d) :
    d.xTrain.length = d.yTrain.length ∧ d.xTest.length = d.yTest.length := by
  unfold assembleData at h
  repeat' split at h
  all_goals simp_all
  rename_i h1 h2
  subst h
  exact ⟨h1, h2⟩

end Imdb

open Imdb in
/-- Claim C7: `loadData` downloads the archive exactly when the destination
file is missing or empty, extracts it exactly when the extraction directory
is missing, and on success returns tensors in which `xTrain` and `yTrain`
have the same number of example rows, as do `xTest` and `yTest`. -/
theorem C7_loadData (net : String → List ℕ)
    (unzip : List ℕ → List (String × List ℕ)) (tmpDir : String) (fs : FS)
    (numWords : ℤ) (len : ℕ) :
    (Effect.download DATA_ZIP_URL (zipDestPath tmpDir) ∈
        (loadData net unzip tmpDir fs numWords len).2.1 ↔
      (existsFile fs (zipDestPath tmpDir) = false ∨
        fileSize fs (zipDestPath tmpDir) = 0)) ∧
    (Effect.extractZip (zipDestPath tmpDir) (extractDirPath tmpDir) ∈
        (loadData net unzip tmpDir fs numWords len).2.1 ↔
      existsDir fs (extractDirPath tmpDir) = false) ∧
    ∀ d, (loadData net unzip tmpDir fs numWords len).2.2 = .ok d →
      d.xTrain.length = d.yTrain.length ∧ d.xTest.length = d.yTest.length := by
  refine ⟨?_, ?_, ?_⟩
  · simp only [loadData, maybeDownloadAndExtract, List.mem_append]
    constructor
    · rintro (hm | hm)
      · exact (maybeDownload_effect net fs DATA_ZIP_URL (zipDestPath tmpDir)).mp hm
      · exact absurd hm (maybeExtract_no_download unzip _ _ _ _ _)
    · intro hr
      exact Or.inl ((maybeDownload_effect net fs DATA_ZIP_URL (zipDestPath tmpDir)).mpr hr)
  · simp only [loadData, maybeDownloadAndExtract, List.mem_append]
    constructor
    · rintro (hm | hm)
      · exact absurd hm (maybeDownload_no_extract net fs _ _ _ _)
      · have := (maybeExtract_effect unzip _ (zipDestPath tmpDir)
          (extractDirPath tmpDir)).mp hm
        rwa [maybeDownload_dirs] at this
    · intro hr
      refine Or.inr ((maybeExtract_effect unzip _ (zipDestPath tmpDir)
        (extractDirPath tmpDir)).mpr ?_)
      rwa [maybeDownload_dirs]
  · intro d hd
    simp only [loadData, maybeDownloadAndExtract] at hd
    exact assembleData_ok _ _ _ _ _ hd

open Imdb in
/-- Claim C7 witness: a file system in which the archive file, the extraction
directory and the four data files all exist; no download and no extraction
happen and the loaded tensors have matching row counts (one train example,
zero test examples). -/
theorem C7_loadData_witness :
    (Effect.download DATA_ZIP_URL (zipDestPath "/tmp") ∈
        (loadData (fun _ => []) (fun _ => []) "/tmp"
          ⟨[("/tmp/imdb_tfjs_data.zip", [1]),
            ("/tmp/imdb_tfjs_data/imdb_train_data.bin", [5,0,0,0]),
            ("/tmp/imdb_tfjs_data/imdb_train_targets.bin", [7]),
            ("/tmp/imdb_tfjs_data/imdb_test_data.bin", []),
            ("/tmp/imdb_tfjs_data/imdb_test_targets.bin", [])],
           ["/tmp/imdb_tfjs_data"]⟩ 10 2).2.1 ↔
      (existsFile ⟨[("/tmp/imdb_tfjs_data.zip", [1]),
            ("/tmp/imdb_tfjs_data/imdb_train_data.bin", [5,0,0,0]),
            ("/tmp/imdb_tfjs_data/imdb_train_targets.bin", [7]),
            ("/tmp/imdb_tfjs_data/imdb_test_data.bin", []),
            ("/tmp/imdb_tfjs_data/imdb_test_targets.bin", [])],
           ["/tmp/imdb_tfjs_data"]⟩ (zipDestPath "/tmp") = false ∨
        fileSize ⟨[("/tmp/imdb_tfjs_data.zip", [1]),
            ("/tmp/imdb_tfjs_data/imdb_train_data.bin", [5,0,0,0]),
            ("/tmp/imdb_tfjs_data/imdb_train_targets.bin", [7]),
            ("/tmp/imdb_tfjs_data/imdb_test_data.bin", []),
            ("/tmp/imdb_tfjs_data/imdb_test_targets.bin", [])],
           ["/tmp/imdb_tfjs_data"]⟩ (zipDestPath "/tmp") = 0)) ∧
    ((⟨[[0, 5]], [7], [], []⟩ : LoadedData).xTrain.length =
        (⟨[[0, 5]], [7], [], []⟩ : LoadedData).yTrain.length ∧
      (⟨[[0, 5]], [7], [], []⟩ : LoadedData).xTest.length =
        (⟨[[0, 5]], [7], [], []⟩ : LoadedData).yTest.length) := by
  have h := C7_loadData (fun _ => []) (fun _ => []) "/tmp"
    ⟨[("/tmp/imdb_tfjs_data.zip", [1]),
      ("/tmp/imdb_tfjs_data/imdb_train_data.bin", [5,0,0,0]),
      ("/tmp/imdb_tfjs_data/imdb_train_targets.bin", [7]),
      ("/tmp/imdb_tfjs_data/imdb_test_data.bin", []),
      ("/tmp/imdb_tfjs_data/imdb_test_targets.bin", [])],
     ["/tmp/imdb_tfjs_data"]⟩ 10 2
  exact ⟨h.1, h.2.2 ⟨[[0, 5]], [7], [], []⟩ (by rfl)⟩

open DateConversion in
/-- Claim C8: when the trimmed, uppercased input has fewer than 6 characters
the change handler clears the output field and runs no inference; when it is
longer than `INPUT_LENGTH` (a constant that is at least 6), inference runs on
its first `INPUT_LENGTH` characters. -/
theorem C8_dateInput_changeHandler (inputLength : ℕ)
    (infer : String → Except String String) (value : String)
    (hlen : 6 ≤ inputLength) :
    ((trimUpper value).length < 6 →
      changeHandler inputLength infer value = ⟨"", none⟩) ∧
    (inputLength < (trimUpper value).length →
      (changeHandler inputLength infer value).inferredInput =
        some ((trimUpper value).take inputLength)) := by
  constructor
  · intro hshort
    simp [changeHandler, hshort]
  · intro hlong
    have hge : ¬ (trimUpper value).length < 6 := by omega
    rcases hinf : infer ((trimUpper value).take inputLength) with msg | out <;>
      simp [changeHandler, hge, hlong, hinf]

open DateConversion in
/-- Claim C8 witness with `INPUT_LENGTH = 12` (its value in the date-format
module): a 5-character input clears the output without inference, and a
15-character input is truncated to its first 12 characters for inference. -/
theorem C8_dateInput_changeHandler_witness :
    changeHandler 12 (fun _ => .ok "2034-07-18") "1 jan" = ⟨"", none⟩ ∧
    (changeHandler 12 (fun _ => .ok "2034-07-18") "january 2, 2034").inferredInput =
      some ((trimUpper "january 2, 2034").take 12) := by
  have h1 := C8_dateInput_changeHandler 12 (fun _ => .ok "2034-07-18") "1 jan"
    (by decide)
  have h2 := C8_dateInput_changeHandler 12 (fun _ => .ok "2034-07-18")
    "january 2, 2034" (by decide)
  exact ⟨h1.1 (by decide), h2.2 (by decide)⟩

open JenaWeather in
/-- Claim C10: `main` parses the command-line arguments with the defaults
`lookBack = 1440`, `step = 6`, `delay = 144`, `batchSize = 128`,
`epochs = 20`, and calls `buildModel` with `Math.floor(lookBack / step)` time
steps and one feature per loaded data column name. -/
theorem C10_trainRnn_main_buildModel (o : ArgOverrides) (columnNames : List String) :
    main o columnNames =
      { modelType := (parseArguments o).modelType,
        numTimeSteps := Int.fdiv (parseArguments o).lookBack (parseArguments o).step,
        numFeatures := columnNames.length } ∧
    parseArguments {} =
      { modelType := "gru", gpu := false, lookBack := 1440, step := 6,
        delay := 144, normalize := true, includeDateTime := false,
        batchSize := 128, epochs := 20, displayEvery := 10 } := by
  exact ⟨rfl, by decide⟩
